import Mathlib

/-!
Verification of the StudySync onboarding workflow state machine
(src/frontend/src/pages/Onboarding.tsx).

The component keeps its state in React useState hooks; we embed that state
as an explicit structure and each event handler as a pure state transformer.
Inbound server-sent-event payloads are modelled as an optional discriminated
union: `none` stands for a payload that fails to parse as JSON, and the
`other` constructor stands for a parsed payload whose `type` field matches
none of the three handled branches.  EventSource delivery semantics (a
closed source delivers no further messages) are modelled by the `deliver`
wrapper, which ignores messages once the stream is closed.
-/

namespace StudySync

/-- The three values of the `step` useState hook. -/
inductive Step where
  | topic
  | commitment
  | creating
deriving DecidableEq

/-- One entry of the `progressMessages` list (interface ProgressMessage). -/
structure ProgressMessage where
  message : String
  phase : String
  timestamp : String
deriving DecidableEq

/-- A `progress`-typed event payload, with the fields the handler reads. -/
structure ProgressEventData where
  phase : String
  message : String
  timestamp : String
deriving DecidableEq

/-- A successfully JSON-parsed stream payload, discriminated on `type`.
`other` covers a parsed object whose `type` is none of the three branches.
Fields that the handler tests for JS truthiness are `Option String`. -/
inductive SSEData where
  | progress (e : ProgressEventData)
  | complete (learning_path_id : Option String)
  | error (message : Option String)
  | other
deriving DecidableEq

/-- A raw inbound message: `none` models a payload on which JSON.parse
throws (the catch branch), `some d` a successfully parsed payload. -/
def RawMessage : Type := Option SSEData

/-- The full component state: one field per useState hook, plus
`streamOpen` (whether the EventSource of the current attempt is open) and
`navigatedTo` (the last route passed to navigate, if any). -/
structure OnboardingState where
  step : Step
  topic : String
  commitmentLevel : String
  proficiencyLevel : String
  startDate : String
  endDate : String
  loading : Bool
  error : String
  progressMessages : List ProgressMessage
  currentPhase : String
  streamOpen : Bool
  navigatedTo : Option String
deriving DecidableEq

/-- The useState initial values (Onboarding.tsx lines 15-24). -/
def initialState : OnboardingState :=
  { step := Step.topic
    topic := ""
    commitmentLevel := "moderate"
    proficiencyLevel := "beginner"
    startDate := ""
    endDate := ""
    loading := false
    error := ""
    progressMessages := []
    currentPhase := ""
    streamOpen := false
    navigatedTo := none }

/-- JS `a || d` for an optional string `a`: the default is used when the
field is absent or the empty string (both falsy in JS). -/
def jsOr (a : Option String) (d : String) : String :=
  match a with
  | some s => if s = "" then d else s
  | none => d

/-- JS truthiness of an optional string field: present and non-empty. -/
def isTruthy (a : Option String) : Bool :=
  match a with
  | some s => s ≠ ""
  | none => false

/-- JS String.prototype.trim: drop leading and trailing whitespace.
Defined structurally on the character list so that concrete states
evaluate inside proofs. -/
def jsTrim (s : String) : String :=
  String.mk
    (((s.data.dropWhile Char.isWhitespace).reverse.dropWhile Char.isWhitespace).reverse)

/-- `handleTopicSubmit` (lines 28-31): advance to commitment unless the
trimmed topic is empty, in which case return with no change. -/
def handleTopicSubmit (s : OnboardingState) : OnboardingState :=
  if jsTrim s.topic = "" then s else { s with step := Step.commitment }

/-- The URLSearchParams built by `handleCreateLearningPath`
(lines 40-51): topic, commitment_level and proficiency_level always;
start_date and end_date appended only when the field is truthy. -/
def buildParams (s : OnboardingState) : List (String × String) :=
  [("topic", s.topic),
   ("commitment_level", s.commitmentLevel),
   ("proficiency_level", s.proficiencyLevel)]
  ++ (if s.startDate = "" then [] else [("start_date", s.startDate)])
  ++ (if s.endDate = "" then [] else [("end_date", s.endDate)])

/-- `handleCreateLearningPath` state effects (lines 33-55): set step to
creating, start loading, clear error, log and phase, then open the
EventSource for this attempt. -/
def handleCreateLearningPath (s : OnboardingState) : OnboardingState :=
  { s with step := Step.creating
           loading := true
           error := ""
           progressMessages := []
           currentPhase := ""
           streamOpen := true }

/-- The onmessage handler body (lines 57-83), applied to an already
delivered message.  A parse failure (`none`) and an unhandled `type`
(`other`) leave the state unchanged; `progress` updates the phase and
appends to the log; `complete` closes the stream, stops loading and
navigates when `data.learning_path_id` is truthy; `error` closes the
stream, surfaces the message with the JS `||` fallback, stops loading and
returns to commitment. -/
def onmessage (s : OnboardingState) (m : RawMessage) : OnboardingState :=
  match m with
  | none => s
  | some (SSEData.progress e) =>
      { s with currentPhase := e.phase
               progressMessages := s.progressMessages ++
                 [{ message := e.message, phase := e.phase,
                    timestamp := e.timestamp }] }
  | some (SSEData.complete lpid) =>
      if isTruthy lpid then
        { s with streamOpen := false, loading := false,
                 navigatedTo := some ("/dashboard/" ++ lpid.getD "") }
      else
        { s with streamOpen := false, loading := false }
  | some (SSEData.error msg) =>
      { s with streamOpen := false
               error := jsOr msg "Failed to create learning path"
               loading := false
               step := Step.commitment }
  | some SSEData.other => s

/-- The onerror handler (lines 85-90): close, surface the generic
connection-lost message, stop loading, return to commitment. -/
def onerror (s : OnboardingState) : OnboardingState :=
  { s with streamOpen := false
           error := "Connection lost. Please try again."
           loading := false
           step := Step.commitment }

/-- Delivery of one message: a closed EventSource invokes no handler. -/
def deliver (s : OnboardingState) (m : RawMessage) : OnboardingState :=
  if s.streamOpen then onmessage s m else s

/-- Delivery of a sequence of messages in order. -/
def deliverAll (s : OnboardingState) (ms : List RawMessage) : OnboardingState :=
  ms.foldl deliver s

/-- A terminal payload: `complete` or `error` typed. -/
def isTerminalData : SSEData → Bool
  | SSEData.complete _ => true
  | SSEData.error _ => true
  | _ => false

/-- The user-interface and stream events the page can receive.  Each
handler is attached only to controls rendered in a particular step, so the
step function guards each event by the step that renders its control. -/
inductive UIEvent where
  | topicInput (v : String)
  | topicSubmit
  | backToTopic
  | setProficiency (v : String)
  | setCommitment (v : String)
  | setStart (v : String)
  | setEnd (v : String)
  | createClick
  | headerClick
  | streamMessage (m : RawMessage)
  | streamFailure

/-- One step of the page: dispatch an event to its handler.  The topic
input and submit button exist only in the topic step; the preference
controls, date inputs, back button and create button only in the
commitment step; the header logo (onClick navigate to the root route,
line 105) exists in every step and does not close the stream; stream
callbacks fire only while the EventSource is open. -/
def stepFn (s : OnboardingState) (e : UIEvent) : OnboardingState :=
  match e with
  | UIEvent.topicInput v =>
      if s.step = Step.topic then { s with topic := v } else s
  | UIEvent.topicSubmit =>
      if s.step = Step.topic then handleTopicSubmit s else s
  | UIEvent.backToTopic =>
      if s.step = Step.commitment then { s with step := Step.topic } else s
  | UIEvent.setProficiency v =>
      if s.step = Step.commitment then { s with proficiencyLevel := v } else s
  | UIEvent.setCommitment v =>
      if s.step = Step.commitment then { s with commitmentLevel := v } else s
  | UIEvent.setStart v =>
      if s.step = Step.commitment then { s with startDate := v } else s
  | UIEvent.setEnd v =>
      if s.step = Step.commitment then { s with endDate := v } else s
  | UIEvent.createClick =>
      if s.step = Step.commitment then handleCreateLearningPath s else s
  | UIEvent.headerClick => { s with navigatedTo := some "/" }
  | UIEvent.streamMessage m => deliver s m
  | UIEvent.streamFailure => if s.streamOpen then onerror s else s

/-- Run the page from a state through a sequence of events. -/
def run (s : OnboardingState) (es : List UIEvent) : OnboardingState :=
  es.foldl stepFn s

/-- A state the page can actually be in, starting from the mount state. -/
def Reachable (s : OnboardingState) : Prop :=
  ∃ es : List UIEvent, run initialState es = s

/-- Map a progress event to the log entry the handler appends. -/
def toEntry (e : ProgressEventData) : ProgressMessage :=
  { message := e.message, phase := e.phase, timestamp := e.timestamp }

/-- Wrap a progress event as a delivered raw message. -/
def progressMsg (e : ProgressEventData) : RawMessage :=
  some (SSEData.progress e)

/-- The state invariant: the stream is only ever open in the creating
step (opening happens at createClick, and every transition out of
creating closes the stream or does not change the step). -/
def Inv (s : OnboardingState) : Prop :=
  s.streamOpen = true → s.step = Step.creating

/-- A concrete state at the commitment step with the defaults kept. -/
def commitmentReady : OnboardingState :=
  { initialState with step := Step.commitment, topic := "Python Programming" }

/-- The concrete state right after pressing create from commitmentReady. -/
def creatingState : OnboardingState :=
  handleCreateLearningPath commitmentReady

/-- Last element of a mapped list, with a default. -/
lemma getLastD_cons_eq {α : Type} (a d : α) (l : List α) :
    ((a :: l).getLast?).getD d = (l.getLast?).getD a := by
  cases h : l.getLast? with
  | none => simp [List.getLast?_eq_none_iff] at h; simp [h]
  | some b => simp [List.getLast?_cons, h]

/-- Processing a terminal payload always leaves the stream closed. -/
lemma deliver_terminal_closes (s : OnboardingState) (d : SSEData)
    (hterm : isTerminalData d = true) :
    (deliver s (some d)).streamOpen = false := by
  rw [deliver]
  split
  · cases d with
    | progress e => simp [isTerminalData] at hterm
    | complete lpid => simp [onmessage]; split <;> simp
    | error msg => simp [onmessage]
    | other => simp [isTerminalData] at hterm
  · simp_all

/-- A transport failure always leaves the stream closed. -/
lemma streamFailure_closes (s : OnboardingState) :
    (stepFn s UIEvent.streamFailure).streamOpen = false := by
  cases h : s.streamOpen <;> simp [stepFn, h, onerror]

/-- With the stream closed, delivery of any message sequence is a no-op. -/
lemma deliverAll_closed (s : OnboardingState) (h : s.streamOpen = false) :
    ∀ ms : List RawMessage, deliverAll s ms = s := by
  intro ms
  induction ms with
  | nil => rfl
  | cons m ms ih =>
      show deliverAll (deliver s m) ms = s
      rw [deliver, if_neg (by simp [h]), ih]

/-- Delivering only progress events appends their entries in order and
sets the phase to the last delivered phase. -/
lemma deliverAll_progress (es : List ProgressEventData) :
    ∀ s : OnboardingState, s.streamOpen = true →
    deliverAll s (es.map progressMsg) =
      { s with progressMessages := s.progressMessages ++ es.map toEntry,
               currentPhase :=
                 ((es.map ProgressEventData.phase).getLast?).getD s.currentPhase } := by
  induction es with
  | nil => intro s h; simp [deliverAll]
  | cons e es ih =>
      intro s h
      show deliverAll (deliver s (progressMsg e)) (es.map progressMsg) = _
      rw [deliver, if_pos h]
      rw [ih _ (by simp [onmessage, progressMsg, h])]
      simp [onmessage, progressMsg, toEntry, List.map_cons, getLastD_cons_eq]

end StudySync

open StudySync

/-- C2: once a terminal (complete or error) payload is processed, the
stream is closed, and delivering any further message sequence leaves the
state exactly as it was: nothing is appended and nothing changes. -/
theorem terminal_event_closes_and_freezes (s : OnboardingState) (d : SSEData)
    (hterm : isTerminalData d = true) :
    (deliver s (some d)).streamOpen = false ∧
    ∀ ms : List RawMessage,
      deliverAll (deliver s (some d)) ms = deliver s (some d) := by
  have hclosed := deliver_terminal_closes s d hterm
  exact ⟨hclosed, deliverAll_closed _ hclosed⟩

/-- C2 witness: a concrete error payload processed in a concrete open
state closes the stream and freezes it against two further messages. -/
theorem terminal_event_closes_and_freezes_witness :
    (deliver creatingState (some (SSEData.error (some "boom")))).streamOpen = false ∧
    deliverAll (deliver creatingState (some (SSEData.error (some "boom"))))
      [progressMsg ⟨"resources", "late", "t9"⟩, none] =
      deliver creatingState (some (SSEData.error (some "boom"))) := by
  have h := terminal_event_closes_and_freezes creatingState
    (SSEData.error (some "boom")) rfl
  exact ⟨h.1, h.2 _⟩

/-- C4: pressing create at the commitment step unconditionally moves to
creating and, in the very state in which the stream is opened (before any
event can be processed), the error, the log and the phase are empty. -/
theorem create_click_resets (s : OnboardingState) (h : s.step = Step.commitment) :
    stepFn s UIEvent.createClick =
      { s with step := Step.creating, loading := true, error := "",
               progressMessages := [], currentPhase := "", streamOpen := true } := by
  simp [stepFn, h, handleCreateLearningPath]

/-- C4 witness: the reset at a concrete commitment state. -/
theorem create_click_resets_witness :
    stepFn commitmentReady UIEvent.createClick =
      { commitmentReady with
          step := Step.creating, loading := true, error := "",
          progressMessages := [], currentPhase := "", streamOpen := true } :=
  create_click_resets commitmentReady rfl

/-- C6: submitting from the topic step advances to commitment exactly
when the trimmed topic is non-empty; otherwise the whole state (hence
also the absence of any open stream) is unchanged. -/
theorem topic_submit_guard (s : OnboardingState) (h : s.step = Step.topic) :
    (jsTrim s.topic ≠ "" →
       stepFn s UIEvent.topicSubmit = { s with step := Step.commitment }) ∧
    (jsTrim s.topic = "" → stepFn s UIEvent.topicSubmit = s) := by
  constructor
  · intro hne; simp [stepFn, h, handleTopicSubmit, hne]
  · intro heq; simp [stepFn, h, handleTopicSubmit, heq]

/-- C6 witness: a whitespace-only topic does not advance, a real topic
does, at concrete states. -/
theorem topic_submit_guard_witness :
    stepFn { initialState with topic := "   " } UIEvent.topicSubmit =
      { initialState with topic := "   " } ∧
    stepFn { initialState with topic := "Rust" } UIEvent.topicSubmit =
      { initialState with topic := "Rust", step := Step.commitment } := by
  constructor
  · exact (topic_submit_guard { initialState with topic := "   " } rfl).2 (by decide)
  · exact (topic_submit_guard { initialState with topic := "Rust" } rfl).1 (by decide)

/-- C7: a payload that fails JSON parsing leaves the state unchanged
(stream still open, log, phase, step, error, loading untouched), and the
remaining messages of the sequence are processed exactly as they would
have been without it. -/
theorem malformed_payload_ignored (s : OnboardingState) (ms : List RawMessage) :
    deliver s none = s ∧ deliverAll s (none :: ms) = deliverAll s ms := by
  have h1 : deliver s none = s := by
    rw [deliver]; split <;> rfl
  refine ⟨h1, ?_⟩
  show deliverAll (deliver s none) ms = deliverAll s ms
  rw [h1]

/-- C1: progress events delivered in order while creating, starting from
the fresh empty log, produce exactly the corresponding entries in order,
nothing dropped, mutated, removed or reordered, and the phase indicator
equals the phase of the last event processed. -/
theorem progress_log_faithful (s : OnboardingState) (es : List ProgressEventData)
    (elast : ProgressEventData)
    (h1 : s.streamOpen = true) (h2 : s.step = Step.creating)
    (h3 : s.progressMessages = []) (h4 : es.getLast? = some elast) :
    (deliverAll s (es.map progressMsg)).progressMessages = es.map toEntry ∧
    (deliverAll s (es.map progressMsg)).currentPhase = elast.phase := by
  rw [deliverAll_progress es s h1]
  constructor
  · simp [h3]
  · show ((es.map ProgressEventData.phase).getLast?).getD s.currentPhase = elast.phase
    rw [List.getLast?_map, h4]
    rfl

/-- C1 witness: two concrete progress events produce exactly the two
corresponding log entries in order and the phase of the second. -/
theorem progress_log_faithful_witness :
    (deliverAll creatingState
       ([⟨"curriculum", "Building curriculum", "t1"⟩,
         ⟨"resources", "Finding resources", "t2"⟩].map progressMsg)).progressMessages =
      [{ message := "Building curriculum", phase := "curriculum", timestamp := "t1" },
       { message := "Finding resources", phase := "resources", timestamp := "t2" }] ∧
    (deliverAll creatingState
       ([⟨"curriculum", "Building curriculum", "t1"⟩,
         ⟨"resources", "Finding resources", "t2"⟩].map progressMsg)).currentPhase =
      "resources" :=
  progress_log_faithful creatingState
    [⟨"curriculum", "Building curriculum", "t1"⟩,
     ⟨"resources", "Finding resources", "t2"⟩]
    ⟨"resources", "Finding resources", "t2"⟩ rfl rfl rfl rfl

/-- C3: an error event closes the stream, stops loading, returns to
commitment, surfaces the event message (or the fallback when the message
is absent), and a transport failure does the same with the fixed
connection-lost message; in both cases topic, proficiency, commitment and
both dates keep their pre-attempt values. -/
theorem error_event_recovers (s : OnboardingState) (msg : Option String)
    (h : s.streamOpen = true) :
    ((deliver s (some (SSEData.error msg))).streamOpen = false ∧
     (deliver s (some (SSEData.error msg))).loading = false ∧
     (deliver s (some (SSEData.error msg))).step = Step.commitment ∧
     (msg = none →
        (deliver s (some (SSEData.error msg))).error =
          "Failed to create learning path") ∧
     (∀ t, msg = some t → t ≠ "" →
        (deliver s (some (SSEData.error msg))).error = t) ∧
     (deliver s (some (SSEData.error msg))).topic = s.topic ∧
     (deliver s (some (SSEData.error msg))).proficiencyLevel = s.proficiencyLevel ∧
     (deliver s (some (SSEData.error msg))).commitmentLevel = s.commitmentLevel ∧
     (deliver s (some (SSEData.error msg))).startDate = s.startDate ∧
     (deliver s (some (SSEData.error msg))).endDate = s.endDate) ∧
    ((stepFn s UIEvent.streamFailure).streamOpen = false ∧
     (stepFn s UIEvent.streamFailure).loading = false ∧
     (stepFn s UIEvent.streamFailure).step = Step.commitment ∧
     (stepFn s UIEvent.streamFailure).error = "Connection lost. Please try again." ∧
     (stepFn s UIEvent.streamFailure).topic = s.topic ∧
     (stepFn s UIEvent.streamFailure).proficiencyLevel = s.proficiencyLevel ∧
     (stepFn s UIEvent.streamFailure).commitmentLevel = s.commitmentLevel ∧
     (stepFn s UIEvent.streamFailure).startDate = s.startDate ∧
     (stepFn s UIEvent.streamFailure).endDate = s.endDate) := by
  have hd : deliver s (some (SSEData.error msg)) =
      onmessage s (some (SSEData.error msg)) := by
    rw [deliver, if_pos h]
  have hf : stepFn s UIEvent.streamFailure = onerror s := by
    show (if s.streamOpen then onerror s else s) = onerror s
    rw [if_pos h]
  rw [hd, hf]
  constructor
  · refine ⟨rfl, rfl, rfl, ?_, ?_, rfl, rfl, rfl, rfl, rfl⟩
    · intro hm; subst hm; rfl
    · intro t hm hne; subst hm
      show jsOr (some t) "Failed to create learning path" = t
      simp [jsOr, hne]
  · exact ⟨rfl, rfl, rfl, rfl, rfl, rfl, rfl, rfl, rfl⟩

/-- C3 witness: a concrete error event surfaces its message, returns to
commitment and keeps the entered topic; a concrete transport failure
surfaces the connection-lost message. -/
theorem error_event_recovers_witness :
    (deliver creatingState
       (some (SSEData.error (some "LLM provider unavailable")))).error =
      "LLM provider unavailable" ∧
    (deliver creatingState
       (some (SSEData.error (some "LLM provider unavailable")))).step =
      Step.commitment ∧
    (deliver creatingState
       (some (SSEData.error (some "LLM provider unavailable")))).topic =
      creatingState.topic ∧
    (stepFn creatingState UIEvent.streamFailure).error =
      "Connection lost. Please try again." := by
  have h := error_event_recovers creatingState (some "LLM provider unavailable") rfl
  exact ⟨h.1.2.2.2.2.1 "LLM provider unavailable" rfl (by decide),
         h.1.2.2.1, h.1.2.2.2.2.2.1, h.2.2.2.2.1⟩

/-- C5: a complete event closes the stream and stops loading; with a
truthy learning_path_id it navigates to the dashboard route for that id;
otherwise it performs no navigation and the step stays creating with the
error unchanged. -/
theorem complete_event_behavior (s : OnboardingState) (lpid : Option String)
    (h1 : s.streamOpen = true) (h2 : s.step = Step.creating) :
    (deliver s (some (SSEData.complete lpid))).streamOpen = false ∧
    (deliver s (some (SSEData.complete lpid))).loading = false ∧
    (∀ id, lpid = some id → id ≠ "" →
       (deliver s (some (SSEData.complete lpid))).navigatedTo =
         some ("/dashboard/" ++ id)) ∧
    (isTruthy lpid = false →
       (deliver s (some (SSEData.complete lpid))).navigatedTo = s.navigatedTo ∧
       (deliver s (some (SSEData.complete lpid))).step = Step.creating ∧
       (deliver s (some (SSEData.complete lpid))).error = s.error) := by
  have hd : deliver s (some (SSEData.complete lpid)) =
      onmessage s (some (SSEData.complete lpid)) := by
    rw [deliver, if_pos h1]
  rw [hd]
  by_cases hb : isTruthy lpid = true
  · simp only [onmessage, if_pos hb]
    refine ⟨trivial, trivial, ?_, ?_⟩
    · intro id hm hne; subst hm; rfl
    · intro hfalse; rw [hfalse] at hb; exact Bool.noConfusion hb
  · simp only [onmessage, if_neg hb]
    refine ⟨trivial, trivial, ?_, ?_⟩
    · intro id hm hne; subst hm
      exact absurd (by simp [isTruthy, hne]) hb
    · intro _; exact ⟨trivial, h2, trivial⟩

/-- C5 witness: a concrete complete event with id lp-123 navigates to the
dashboard route and closes the stream; one without an id navigates
nowhere and stays in creating. -/
theorem complete_event_behavior_witness :
    (deliver creatingState (some (SSEData.complete (some "lp-123")))).navigatedTo =
      some "/dashboard/lp-123" ∧
    (deliver creatingState (some (SSEData.complete (some "lp-123")))).streamOpen =
      false ∧
    (deliver creatingState (some (SSEData.complete none))).navigatedTo = none ∧
    (deliver creatingState (some (SSEData.complete none))).step = Step.creating := by
  have ha := complete_event_behavior creatingState (some "lp-123") rfl rfl
  have hb := complete_event_behavior creatingState none rfl rfl
  refine ⟨?_, ha.1, ?_, (hb.2.2.2 rfl).2.1⟩
  · have := ha.2.2.1 "lp-123" rfl (by decide)
    simpa using this
  · have := (hb.2.2.2 rfl).1
    simpa using this

/-- C8 counterexample: topic entered, attempt started, one progress event,
then an error event.  The machine is back at commitment, yet the progress
log still holds the entry from the failed attempt: the log is not cleared
at the return transition, only when the next attempt starts. -/
theorem log_not_cleared_on_error_return :
    (run initialState
       [UIEvent.topicInput "Python Programming", UIEvent.topicSubmit,
        UIEvent.createClick,
        UIEvent.streamMessage (progressMsg ⟨"curriculum", "Building curriculum", "t1"⟩),
        UIEvent.streamMessage (some (SSEData.error (some "LLM provider unavailable")))]).step
      = Step.commitment ∧
    (run initialState
       [UIEvent.topicInput "Python Programming", UIEvent.topicSubmit,
        UIEvent.createClick,
        UIEvent.streamMessage (progressMsg ⟨"curriculum", "Building curriculum", "t1"⟩),
        UIEvent.streamMessage (some (SSEData.error (some "LLM provider unavailable")))]).progressMessages
      = [{ message := "Building curriculum", phase := "curriculum", timestamp := "t1" }] := by
  decide

/-- C8 amended: the error branch that returns to commitment leaves the
progress log exactly as it was; the log is cleared only when the next
creation attempt starts (the createClick reset). -/
theorem log_cleared_only_on_next_attempt (s : OnboardingState) (msg : Option String)
    (h : s.streamOpen = true) :
    (deliver s (some (SSEData.error msg))).step = Step.commitment ∧
    (deliver s (some (SSEData.error msg))).progressMessages = s.progressMessages ∧
    (stepFn (deliver s (some (SSEData.error msg))) UIEvent.createClick).progressMessages
      = [] := by
  have hd : deliver s (some (SSEData.error msg)) =
      onmessage s (some (SSEData.error msg)) := by
    rw [deliver, if_pos h]
  rw [hd]
  refine ⟨rfl, rfl, ?_⟩
  show (stepFn _ UIEvent.createClick).progressMessages = []
  simp [stepFn, onmessage, handleCreateLearningPath]

/-- C8 amended witness: a concrete failed attempt keeps its log entry
through the return to commitment and loses it at the next createClick. -/
theorem log_cleared_only_on_next_attempt_witness :
    (deliver
       (deliver creatingState (progressMsg ⟨"curriculum", "Building curriculum", "t1"⟩))
       (some (SSEData.error none))).progressMessages =
      (deliver creatingState
        (progressMsg ⟨"curriculum", "Building curriculum", "t1"⟩)).progressMessages ∧
    (stepFn
       (deliver
         (deliver creatingState (progressMsg ⟨"curriculum", "Building curriculum", "t1"⟩))
         (some (SSEData.error none))) UIEvent.createClick).progressMessages = [] := by
  have h := log_cleared_only_on_next_attempt
    (deliver creatingState (progressMsg ⟨"curriculum", "Building curriculum", "t1"⟩))
    none rfl
  exact ⟨h.2.1, h.2.2⟩

/-- Each event preserves the invariant that an open stream implies the
creating step. -/
lemma stepFn_inv (s : OnboardingState) (e : UIEvent) (hs : Inv s) :
    Inv (stepFn s e) := by
  cases e with
  | topicInput v =>
      intro h
      by_cases hc : s.step = Step.topic
      · simp only [stepFn, if_pos hc] at h ⊢; exact hs h
      · simp only [stepFn, if_neg hc] at h ⊢; exact hs h
  | topicSubmit =>
      intro h
      by_cases hc : s.step = Step.topic
      · simp only [stepFn, if_pos hc, handleTopicSubmit] at h ⊢
        by_cases ht : jsTrim s.topic = ""
        · simp only [if_pos ht] at h ⊢; exact hs h
        · simp only [if_neg ht] at h ⊢
          have := hs h; rw [hc] at this; exact Step.noConfusion this
      · simp only [stepFn, if_neg hc] at h ⊢; exact hs h
  | backToTopic =>
      intro h
      by_cases hc : s.step = Step.commitment
      · simp only [stepFn, if_pos hc] at h ⊢
        have := hs h; rw [hc] at this; exact Step.noConfusion this
      · simp only [stepFn, if_neg hc] at h ⊢; exact hs h
  | setProficiency v =>
      intro h
      by_cases hc : s.step = Step.commitment
      · simp only [stepFn, if_pos hc] at h ⊢; exact hs h
      · simp only [stepFn, if_neg hc] at h ⊢; exact hs h
  | setCommitment v =>
      intro h
      by_cases hc : s.step = Step.commitment
      · simp only [stepFn, if_pos hc] at h ⊢; exact hs h
      · simp only [stepFn, if_neg hc] at h ⊢; exact hs h
  | setStart v =>
      intro h
      by_cases hc : s.step = Step.commitment
      · simp only [stepFn, if_pos hc] at h ⊢; exact hs h
      · simp only [stepFn, if_neg hc] at h ⊢; exact hs h
  | setEnd v =>
      intro h
      by_cases hc : s.step = Step.commitment
      · simp only [stepFn, if_pos hc] at h ⊢; exact hs h
      · simp only [stepFn, if_neg hc] at h ⊢; exact hs h
  | createClick =>
      intro h
      by_cases hc : s.step = Step.commitment
      · simp only [stepFn, if_pos hc, handleCreateLearningPath]
      · simp only [stepFn, if_neg hc] at h ⊢; exact hs h
  | headerClick =>
      intro h
      simp only [stepFn] at h ⊢; exact hs h
  | streamMessage m =>
      intro h
      by_cases ho : s.streamOpen = true
      · simp only [stepFn, deliver, if_pos ho] at h ⊢
        cases m with
        | none => exact hs h
        | some d =>
            cases d with
            | progress e => simp only [onmessage] at h ⊢; exact hs ho
            | complete lpid =>
                simp only [onmessage] at h
                by_cases hb : isTruthy lpid = true
                · rw [if_pos hb] at h; exact Bool.noConfusion h
                · rw [if_neg hb] at h; exact Bool.noConfusion h
            | error msg =>
                simp only [onmessage] at h; exact Bool.noConfusion h
            | other => exact hs h
      · simp only [stepFn, deliver, if_neg ho] at h ⊢; exact hs h
  | streamFailure =>
      intro h
      by_cases ho : s.streamOpen = true
      · simp only [stepFn, if_pos ho, onerror] at h; exact Bool.noConfusion h
      · simp only [stepFn, if_neg ho] at h ⊢; exact hs h

/-- The invariant holds along every run. -/
lemma run_inv (es : List UIEvent) : ∀ s : OnboardingState, Inv s → Inv (run s es) := by
  induction es with
  | nil => intro s hs; exact hs
  | cons e es ih =>
      intro s hs
      exact ih (stepFn s e) (stepFn_inv s e hs)

/-- In every reachable state at the commitment step the stream is closed:
any prior attempt has already been terminated before a new create press. -/
lemma reachable_commitment_closed (s : OnboardingState) (h : Reachable s)
    (hc : s.step = Step.commitment) : s.streamOpen = false := by
  obtain ⟨es, rfl⟩ := h
  have hinv : Inv (run initialState es) :=
    run_inv es initialState (by intro h0; exact Bool.noConfusion h0)
  cases hso : (run initialState es).streamOpen with
  | false => rfl
  | true =>
      have := hinv hso
      rw [hc] at this
      exact Step.noConfusion this

/-- C9 counterexample: entering a topic, starting creation and then
clicking the header logo navigates away from creating while the stream is
still open — the header click path never closes the EventSource, so a
stream does remain open after the view has left creating. -/
theorem stream_leak_on_header_nav :
    (run initialState
       [UIEvent.topicInput "Rust", UIEvent.topicSubmit,
        UIEvent.createClick, UIEvent.headerClick]).navigatedTo = some "/" ∧
    (run initialState
       [UIEvent.topicInput "Rust", UIEvent.topicSubmit,
        UIEvent.createClick, UIEvent.headerClick]).streamOpen = true := by
  decide

/-- C9 amended: the stream is always closed on the terminal-event path
and on the transport-error path, and every reachable commitment-step
state has the stream closed (so a new creation attempt never coexists
with a prior open stream); the header-navigation path, however, does not
close it. -/
theorem stream_closed_on_exit_paths :
    (∀ (s : OnboardingState) (d : SSEData), isTerminalData d = true →
        (deliver s (some d)).streamOpen = false) ∧
    (∀ s : OnboardingState, (stepFn s UIEvent.streamFailure).streamOpen = false) ∧
    (∀ s : OnboardingState, Reachable s → s.step = Step.commitment →
        s.streamOpen = false) :=
  ⟨deliver_terminal_closes, streamFailure_closes, reachable_commitment_closed⟩

/-- C9 amended witness: closure at a concrete terminal event, a concrete
transport failure, and a concrete reachable commitment state. -/
theorem stream_closed_on_exit_paths_witness :
    (deliver creatingState (some (SSEData.complete (some "lp-9")))).streamOpen = false ∧
    (stepFn creatingState UIEvent.streamFailure).streamOpen = false ∧
    (run initialState [UIEvent.topicInput "Go", UIEvent.topicSubmit]).streamOpen
      = false :=
  ⟨stream_closed_on_exit_paths.1 creatingState (SSEData.complete (some "lp-9")) rfl,
   stream_closed_on_exit_paths.2.1 creatingState,
   stream_closed_on_exit_paths.2.2
     (run initialState [UIEvent.topicInput "Go", UIEvent.topicSubmit])
     ⟨[UIEvent.topicInput "Go", UIEvent.topicSubmit], rfl⟩ (by decide)⟩

/-- C10: the mount state has step topic, proficiency beginner, commitment
moderate and empty topic, dates, error, phase and log; the request
parameter list always carries topic, commitment_level and
proficiency_level, and carries start_date (respectively end_date) with
the entered value exactly when that field is non-empty. -/
theorem initial_defaults_and_params :
    (initialState.step = Step.topic ∧
     initialState.proficiencyLevel = "beginner" ∧
     initialState.commitmentLevel = "moderate" ∧
     initialState.topic = "" ∧ initialState.startDate = "" ∧
     initialState.endDate = "" ∧ initialState.error = "" ∧
     initialState.currentPhase = "" ∧ initialState.progressMessages = []) ∧
    ∀ s : OnboardingState,
      (("topic", s.topic) ∈ buildParams s ∧
       ("commitment_level", s.commitmentLevel) ∈ buildParams s ∧
       ("proficiency_level", s.proficiencyLevel) ∈ buildParams s) ∧
      (∀ v, ("start_date", v) ∈ buildParams s ↔ (v = s.startDate ∧ s.startDate ≠ "")) ∧
      (∀ v, ("end_date", v) ∈ buildParams s ↔ (v = s.endDate ∧ s.endDate ≠ "")) := by
  refine ⟨⟨rfl, rfl, rfl, rfl, rfl, rfl, rfl, rfl, rfl⟩, ?_⟩
  intro s
  refine ⟨⟨?_, ?_, ?_⟩, ?_, ?_⟩
  · simp [buildParams]
  · simp [buildParams]
  · simp [buildParams]
  · intro v
    by_cases h1 : s.startDate = "" <;> by_cases h2 : s.endDate = "" <;>
      simp [buildParams, h1, h2, Prod.ext_iff, eq_comm]
  · intro v
    by_cases h1 : s.startDate = "" <;> by_cases h2 : s.endDate = "" <;>
      simp [buildParams, h1, h2, Prod.ext_iff, eq_comm]

/-- C10 witness: a concrete state with a start date and no end date
carries start_date with that value and no end_date parameter. -/
theorem initial_defaults_and_params_witness :
    ("start_date", "2026-01-01") ∈
      buildParams { initialState with startDate := "2026-01-01" } ∧
    (("end_date", "") ∈
       buildParams { initialState with startDate := "2026-01-01" } → False) := by
  have h := initial_defaults_and_params.2 { initialState with startDate := "2026-01-01" }
  constructor
  · exact (h.2.1 "2026-01-01").mpr ⟨rfl, by decide⟩
  · intro hm
    exact ((h.2.2 "").mp hm).2 rfl
